import Mathlib

/-!
# Verification of the PromptEnhancer two-stage prompt pipeline

Shallow embedding of the core of the PromptEnhancer repository:

* `src/lib/openrouter.ts` — the resilient JSON extractor `parseJsonResponse`
  (the transport wrapper `callOpenRouter` is modelled by an oracle value of
  type `Except TransportError String` passed to the route models, since its
  body is a single platform `fetch`);
* `src/lib/system-prompt.ts` — the generation user-message builder
  `buildMiniMaxUserMessage`;
* `src/app/api/generate/route.ts` — the `POST` handler, modelled as
  `generatePOST`;
* `src/app/api/revise/route.ts` — `buildReviseUserMessage` and the `POST`
  handler, modelled as `revisePOST`.

Modelling conventions:

* Text is modelled as `String` (for lines assembled by the builders) and as
  `List Char` (for the character-level scanning done by the extractor).
* JavaScript `JSON.parse` is modelled by `Json.parse`, an executable strict
  JSON parser over `List Char`.  Numbers are kept as their source lexemes
  (`Json.num "12.5"`), since no code in the repository inspects numeric
  values; two parses of the same text always yield equal `Json` values.
  Duplicate object keys overwrite in place (`setField`), matching JavaScript
  object semantics.  `\uXXXX` escapes denoting lone surrogates are rejected
  (a simplification; no claim depends on them).
* The two regexes of `parseJsonResponse` are modelled procedurally:
  `matchCodeBlock` for  /```(?:json)?\s*([\s\S]*?)```/  and `matchBraceSpan`
  for  /\{[\s\S]*\}/ .  `\s` is modelled by `Char.isWhitespace`
  (space, tab, CR, LF — the whitespace that occurs in this pipeline).
* JavaScript `String.prototype.trim` is modelled by `jsTrim`, and platform
  error-message texts (`SyntaxError`, abort, null property access) by fixed
  constants, since the code only propagates them opaquely.
-/

/-! ## Character utilities -/

/-- The backtick character (written via its code point, `U+0060`). -/
def btChar : Char := Char.ofNat 96

/-- The opening curly brace character `U+007B`. -/
def lbraceChar : Char := Char.ofNat 123

/-- The closing curly brace character `U+007D`. -/
def rbraceChar : Char := Char.ofNat 125

/-- The triple-backtick fence marker searched for by the code-block regex. -/
def tbt : List Char := [btChar, btChar, btChar]

/-- Trim leading and trailing whitespace from a character list.
Models JavaScript `String.prototype.trim` on the whitespace characters that
occur in this pipeline. -/
def trimChars (cs : List Char) : List Char :=
  ((cs.dropWhile Char.isWhitespace).reverse.dropWhile Char.isWhitespace).reverse

/-- JavaScript `s.trim()` at `String` level. -/
def jsTrim (s : String) : String :=
  String.mk (trimChars s.data)

/-- Index of the first occurrence of `pat` as a contiguous segment of `cs`
(the JS `String.prototype.match` / regex search position). -/
def findSub (pat : List Char) : List Char → Option Nat
  | [] => if pat <+: ([] : List Char) then some 0 else none
  | c :: rest =>
    if pat <+: (c :: rest) then some 0
    else (findSub pat rest).map (· + 1)

/-! ## JSON values and `JSON.parse` -/

/-- A parsed JSON value. Numbers are kept as their source lexemes. -/
inductive Json where
  | null : Json
  | bool : Bool → Json
  | num : String → Json
  | str : String → Json
  | arr : List Json → Json
  | obj : List (String × Json) → Json
deriving Repr

/-- Value of a hexadecimal digit, for `\uXXXX` string escapes. -/
def hexDigitVal (c : Char) : Option Nat :=
  if '0' ≤ c ∧ c ≤ '9' then some (c.toNat - 48)
  else if 'a' ≤ c ∧ c ≤ 'f' then some (c.toNat - 87)
  else if 'A' ≤ c ∧ c ≤ 'F' then some (c.toNat - 55)
  else none

/-- Single-character JSON string escapes. -/
def escapeChar : Char → Option Char
  | '"' => some '"'
  | '\\' => some '\\'
  | '/' => some '/'
  | 'b' => some (Char.ofNat 8)
  | 'f' => some (Char.ofNat 12)
  | 'n' => some '\n'
  | 'r' => some '\r'
  | 't' => some '\t'
  | _ => none

/-- Parse the body of a JSON string (after the opening quote), returning the
decoded characters and the remaining input. -/
def parseStringBody : Nat → List Char → Option (List Char × List Char)
  | 0, _ => none
  | _ + 1, [] => none
  | fuel + 1, c :: rest =>
    if c = '"' then some ([], rest)
    else if c = '\\' then
      match rest with
      | [] => none
      | e :: rest2 =>
        if e = 'u' then
          match rest2 with
          | h1 :: h2 :: h3 :: h4 :: rest3 =>
            match hexDigitVal h1, hexDigitVal h2, hexDigitVal h3, hexDigitVal h4 with
            | some a, some b, some c2, some d =>
              let code := ((a * 16 + b) * 16 + c2) * 16 + d
              if code.isValidChar then
                (parseStringBody fuel rest3).map (fun r => (Char.ofNat code :: r.1, r.2))
              else none
            | _, _, _, _ => none
          | _ => none
        else
          match escapeChar e with
          | some ec => (parseStringBody fuel rest2).map (fun r => (ec :: r.1, r.2))
          | none => none
    else if c.toNat < 32 then none
    else (parseStringBody fuel rest).map (fun r => (c :: r.1, r.2))

/-- Parse the optional exponent part of a JSON number, extending the lexeme. -/
def expPart (lex : List Char) (cs : List Char) : Option (List Char × List Char) :=
  match cs with
  | e :: r =>
    if e = 'e' ∨ e = 'E' then
      let sr : List Char × List Char :=
        match r with
        | s :: r2 => if s = '+' ∨ s = '-' then ([s], r2) else ([], s :: r2)
        | [] => ([], [])
      match sr.2 with
      | d :: _ =>
        if d.isDigit then
          some (lex ++ [e] ++ sr.1 ++ sr.2.takeWhile Char.isDigit,
                sr.2.dropWhile Char.isDigit)
        else none
      | [] => none
    else some (lex, cs)
  | [] => some (lex, cs)

/-- Parse the optional fraction part of a JSON number (after the integer
part), then the exponent part. -/
def afterIntPart (lex : List Char) (cs : List Char) : Option (List Char × List Char) :=
  match cs with
  | c :: r =>
    if c = '.' then
      match r with
      | d :: _ =>
        if d.isDigit then
          expPart (lex ++ [c] ++ r.takeWhile Char.isDigit) (r.dropWhile Char.isDigit)
        else none
      | [] => none
    else expPart lex (c :: r)
  | [] => expPart lex []

/-- Lex a JSON number according to the strict JSON grammar
(`-? int frac? exp?`), returning the lexeme and remaining input. -/
def parseNumberLex (cs : List Char) : Option (List Char × List Char) :=
  let snd : List Char × List Char :=
    match cs with
    | c :: r => if c = '-' then ([c], r) else ([], c :: r)
    | [] => ([], [])
  match snd.2 with
  | [] => none
  | c :: r =>
    if c = '0' then afterIntPart (snd.1 ++ [c]) r
    else if c.isDigit then
      afterIntPart (snd.1 ++ (c :: r).takeWhile Char.isDigit)
        ((c :: r).dropWhile Char.isDigit)
    else none

/-- Overwrite-or-append a key in an object field list: JavaScript object
semantics for duplicate keys in `JSON.parse` (last value wins, first
position kept). -/
def setField (fields : List (String × Json)) (k : String) (v : Json) :
    List (String × Json) :=
  if fields.any (fun p => p.1 = k) then
    fields.map (fun p => if p.1 = k then (k, v) else p)
  else fields ++ [(k, v)]

mutual

/-- Parse a single JSON value (leading whitespace allowed), returning the
value and the remaining input. Fuel-indexed; `Json.parse` supplies ample
fuel. -/
def parseValue : Nat → List Char → Option (Json × List Char)
  | 0, _ => none
  | fuel + 1, cs =>
    match cs.dropWhile Char.isWhitespace with
    | [] => none
    | c :: rest =>
      if c = 'n' then
        if ['u', 'l', 'l'].isPrefixOf rest then some (Json.null, rest.drop 3) else none
      else if c = 't' then
        if ['r', 'u', 'e'].isPrefixOf rest then some (Json.bool true, rest.drop 3) else none
      else if c = 'f' then
        if ['a', 'l', 's', 'e'].isPrefixOf rest then some (Json.bool false, rest.drop 4)
        else none
      else if c = '"' then
        match parseStringBody (rest.length + 1) rest with
        | some (s, r) => some (Json.str (String.mk s), r)
        | none => none
      else if c = lbraceChar then parseObjectBody fuel rest
      else if c = '[' then parseArrayBody fuel rest
      else if c = '-' ∨ c.isDigit then
        match parseNumberLex (c :: rest) with
        | some (lex, r) => some (Json.num (String.mk lex), r)
        | none => none
      else none

/-- Parse the body of a JSON object (after the opening brace). -/
def parseObjectBody : Nat → List Char → Option (Json × List Char)
  | 0, _ => none
  | fuel + 1, cs =>
    match cs.dropWhile Char.isWhitespace with
    | [] => none
    | c :: rest =>
      if c = rbraceChar then some (Json.obj [], rest)
      else parseMembers fuel (c :: rest) []

/-- Parse the members of a JSON object (at least one `"key": value` pair),
accumulating fields with JavaScript duplicate-key semantics. -/
def parseMembers : Nat → List Char → List (String × Json) → Option (Json × List Char)
  | 0, _, _ => none
  | fuel + 1, cs, acc =>
    match cs.dropWhile Char.isWhitespace with
    | [] => none
    | c :: rest =>
      if c = '"' then
        match parseStringBody (rest.length + 1) rest with
        | some (k, r1) =>
          match r1.dropWhile Char.isWhitespace with
          | ':' :: r2 =>
            match parseValue fuel r2 with
            | some (v, r3) =>
              match r3.dropWhile Char.isWhitespace with
              | ',' :: r4 => parseMembers fuel r4 (setField acc (String.mk k) v)
              | c2 :: r4 =>
                if c2 = rbraceChar then
                  some (Json.obj (setField acc (String.mk k) v), r4)
                else none
              | [] => none
            | none => none
          | _ => none
        | none => none
      else none

/-- Parse the body of a JSON array (after the opening bracket). -/
def parseArrayBody : Nat → List Char → Option (Json × List Char)
  | 0, _ => none
  | fuel + 1, cs =>
    match cs.dropWhile Char.isWhitespace with
    | ']' :: rest => some (Json.arr [], rest)
    | _ => parseElems fuel cs []

/-- Parse the elements of a JSON array (at least one value). -/
def parseElems : Nat → List Char → List Json → Option (Json × List Char)
  | 0, _, _ => none
  | fuel + 1, cs, acc =>
    match parseValue fuel cs with
    | some (v, r) =>
      match r.dropWhile Char.isWhitespace with
      | ',' :: r2 => parseElems fuel r2 (acc ++ [v])
      | ']' :: r2 => some (Json.arr (acc ++ [v]), r2)
      | _ => none
    | none => none

end

/-- `JSON.parse`: parse a complete JSON text (a single value surrounded by
optional whitespace); `none` models a thrown `SyntaxError`. -/
def Json.parse (cs : List Char) : Option Json :=
  match parseValue (3 * cs.length + 8) cs with
  | some (j, rest) => if rest.dropWhile Char.isWhitespace = [] then some j else none
  | none => none

/-! ## The two fallback regexes of `parseJsonResponse` -/

/-- Model of `text.match(/```(?:json)?\s*([\s\S]*?)```/)`: the captured group
of the first fenced code block, or `none` when the regex does not match.
After the first fence marker the literal tag `json` is skipped if present,
then whitespace; the group extends (lazily) to the next fence marker. -/
def matchCodeBlock (cs : List Char) : Option (List Char) :=
  match findSub tbt cs with
  | none => none
  | some i =>
    let after := cs.drop (i + 3)
    let afterTag := if ['j', 's', 'o', 'n'].isPrefixOf after then after.drop 4 else after
    let body := afterTag.dropWhile Char.isWhitespace
    match findSub tbt body with
    | none => none
    | some k => some (body.take k)

/-- Model of `text.match(/\{[\s\S]*\}/)[0]`: the span from the first `{` to
the last `}` (greedy, not balance-aware), or `none` when there is no `{`
followed later by a `}`. -/
def matchBraceSpan (cs : List Char) : Option (List Char) :=
  match findSub [lbraceChar] cs with
  | none => none
  | some i =>
    match findSub [rbraceChar] cs.reverse with
    | none => none
    | some k =>
      let j := cs.length - 1 - k
      if i < j then some ((cs.take (j + 1)).drop i) else none

/-! ## `parseJsonResponse` (src/lib/openrouter.ts) -/

/-- Failure of `parseJsonResponse`: either a `SyntaxError` thrown by a
nested `JSON.parse` call (whose platform-defined message we model by a fixed
string), or the function's own final error. -/
inductive ParseError where
  | syntaxError : ParseError
  | noJson : ParseError
deriving DecidableEq, Repr

/-- The `message` of a `ParseError` as surfaced by the route handlers'
`catch` blocks. The `SyntaxError` text is platform-defined; we use a fixed
representative. -/
def ParseError.message : ParseError → String
  | .syntaxError => "Unexpected token in JSON"
  | .noJson => "Could not parse JSON from model response"

/-- `parseJsonResponse` from `src/lib/openrouter.ts`, translated exactly:
try `JSON.parse` on the whole text; on failure, if the fenced-block regex
matches, `JSON.parse` the trimmed capture (a failure here propagates — there
is no further fallback); otherwise, if the brace-span regex matches,
`JSON.parse` the span (a failure here also propagates); otherwise throw
`Could not parse JSON from model response`. -/
def parseJsonResponse (text : List Char) : Except ParseError Json :=
  match Json.parse text with
  | some j => .ok j
  | none =>
    match matchCodeBlock text with
    | some interior =>
      match Json.parse (trimChars interior) with
      | some j => .ok j
      | none => .error .syntaxError
    | none =>
      match matchBraceSpan text with
      | some span =>
        match Json.parse span with
        | some j => .ok j
        | none => .error .syntaxError
      | none => .error .noJson

/-- The extractor as the spec (and the function's own doc comment) describes
it: the three strategies are attempted in order and the error is raised
exactly when all three fail — in particular, a parse failure on the fenced
block's interior falls through to the brace-span strategy.  This definition
follows the spec's words (§4.2) and is used to exhibit where the code
deviates from it. -/
def parseJsonResponseSpec (text : List Char) : Except ParseError Json :=
  match Json.parse text with
  | some j => .ok j
  | none =>
    match (matchCodeBlock text).bind (fun i => Json.parse (trimChars i)) with
    | some j => .ok j
    | none =>
      match (matchBraceSpan text).bind Json.parse with
      | some j => .ok j
      | none => .error .noJson

/-! ## Data model (src/lib/system-prompt.ts, route request types) -/

/-- The four free-text creative fields from the main form. -/
structure UserInputs where
  storyline : String
  subject : String
  environment : String
  mood : String
deriving DecidableEq, Repr

/-- Structured result of the Gemini vision step. -/
structure VisualStyleCues where
  description : String
  hexPalette : List String
  cinematicKeywords : List String
deriving DecidableEq, Repr

/-- A reference image attachment: inline base64 data or a remote URL. -/
inductive ImageInput where
  | base64 : (data : String) → (mimeType : String) → ImageInput
  | url : (u : String) → ImageInput
deriving DecidableEq, Repr

/-- Failure of a `callOpenRouter` transport call: the 90-second abort
timeout, a non-OK gateway status (with body), or an OK response with no
content. -/
inductive TransportError where
  | timeout : TransportError
  | gateway : (status : Nat) → (body : String) → TransportError
  | emptyResponse : TransportError
deriving DecidableEq, Repr

/-- The `message` of the `Error` thrown by `callOpenRouter` for each
transport failure (the abort message is platform-defined; we use a fixed
representative). -/
def TransportError.message : TransportError → String
  | .timeout => "This operation was aborted"
  | .gateway status body => "OpenRouter API error " ++ toString status ++ ": " ++ body
  | .emptyResponse => "Empty response from OpenRouter"

/-- The vision model identifier used by the generate route. -/
def visionModel : String := "google/gemini-2.5-flash"

/-- The text-generation model identifier used by both routes. -/
def genModel : String := "minimax/minimax-m2.5"

/-! ## Prompt builders -/

/-- Join a list of lines with `"\n"` (JavaScript `lines.join('\n')`),
producing the message as a character sequence. -/
def joinNl : List String → List Char
  | [] => []
  | s :: rest =>
    match rest with
    | [] => s.data
    | _ :: _ => s.data ++ '\n' :: joinNl rest

/-- The `lines` array assembled by `buildMiniMaxUserMessage`
(src/lib/system-prompt.ts): the prompt-count line; then either the visual
reference block (description, palette, keywords when non-empty) or the
"no visual reference" line; then the user-inputs header, one line per
non-empty field, and the fallback directive when all four fields are
empty. -/
def buildMiniMaxUserMessageLines (userInputs : UserInputs) (promptCount : Int)
    (visualStyleCues : Option VisualStyleCues) : List String :=
  let l1 : List String :=
    ["Generate exactly " ++ toString promptCount ++ " Flux 2 [pro] image generation prompts."]
  let l2 : List String :=
    match visualStyleCues with
    | some c =>
      (l1 ++
        ["\n=== VISUAL REFERENCE — PRIMARY SOURCE (from user-selected moodboard images) ===",
         c.description,
         "\nColor Palette: " ++ String.intercalate ", " c.hexPalette]) ++
      (if c.cinematicKeywords.length > 0 then
        ["Cinematic Keywords (use these directly in your prompts): " ++
          String.intercalate " | " c.cinematicKeywords]
      else [])
    | none =>
      l1 ++ ["\n=== VISUAL REFERENCE: None — generate prompts from user inputs only ==="]
  let l3 := l2 ++ ["\n=== USER INPUTS (story, subject, concept) ==="]
  let l4 := l3 ++
    (if jsTrim userInputs.storyline ≠ "" then
      ["Storyline/Concept: " ++ userInputs.storyline] else [])
  let l5 := l4 ++
    (if jsTrim userInputs.subject ≠ "" then ["Subject: " ++ userInputs.subject] else [])
  let l6 := l5 ++
    (if jsTrim userInputs.environment ≠ "" then
      ["Environment: " ++ userInputs.environment] else [])
  let l7 := l6 ++
    (if jsTrim userInputs.mood ≠ "" then ["Mood/Feeling: " ++ userInputs.mood] else [])
  l7 ++
    (if jsTrim userInputs.storyline = "" ∧ jsTrim userInputs.subject = "" ∧
        jsTrim userInputs.environment = "" ∧ jsTrim userInputs.mood = "" then
      ["(No specific inputs provided — derive subject and environment from the visual reference)"]
    else [])

/-- `buildMiniMaxUserMessage`: the generation user message, as characters. -/
def buildMiniMaxUserMessage (userInputs : UserInputs) (promptCount : Int)
    (visualStyleCues : Option VisualStyleCues) : List Char :=
  joinNl (buildMiniMaxUserMessageLines userInputs promptCount visualStyleCues)

/-- The `lines` array assembled by `buildReviseUserMessage`
(src/app/api/revise/route.ts): fixed header with the shot label, the
original prompt, the revision instruction, the scene-context header, one
line per non-empty user field, and the visual-reference block when cues are
present. -/
def buildReviseUserMessageLines (prompt lab revisionNote : String)
    (userInputs : UserInputs) (visualStyleCues : Option VisualStyleCues) : List String :=
  let lines : List String :=
    ["Revise the following Flux 2 [pro] prompt according to the revision instruction.",
     "Return ONLY valid JSON: \x7b \"prompt\": \"...\" \x7d",
     "Shot label: " ++ lab,
     "",
     "=== ORIGINAL PROMPT ===",
     prompt,
     "",
     "=== REVISION INSTRUCTION ===",
     revisionNote,
     "",
     "=== ORIGINAL SCENE CONTEXT (do not change unless the instruction requires it) ==="]
  let l2 := lines ++
    (if jsTrim userInputs.storyline ≠ "" then
      ["Storyline/Concept: " ++ userInputs.storyline] else [])
  let l3 := l2 ++
    (if jsTrim userInputs.subject ≠ "" then ["Subject: " ++ userInputs.subject] else [])
  let l4 := l3 ++
    (if jsTrim userInputs.environment ≠ "" then
      ["Environment: " ++ userInputs.environment] else [])
  let l5 := l4 ++
    (if jsTrim userInputs.mood ≠ "" then ["Mood/Feeling: " ++ userInputs.mood] else [])
  l5 ++
    (match visualStyleCues with
    | none => []
    | some c =>
      (["",
        "=== VISUAL REFERENCE (from user-selected images) ===",
        c.description,
        "Color Palette: " ++ String.intercalate ", " c.hexPalette]) ++
      (if c.cinematicKeywords.length > 0 then
        ["Cinematic Keywords: " ++ String.intercalate " | " c.cinematicKeywords]
      else []))

/-- `buildReviseUserMessage`: the revision user message, as characters. -/
def buildReviseUserMessage (prompt lab revisionNote : String)
    (userInputs : UserInputs) (visualStyleCues : Option VisualStyleCues) : List Char :=
  joinNl (buildReviseUserMessageLines prompt lab revisionNote userInputs visualStyleCues)

/-! ## Route models

The transport wrapper `callOpenRouter` suspends on the network; each route
model therefore takes, for each call site, an oracle
`Except TransportError String` giving that call's outcome.  The model
returns the route's HTTP outcome together with the ordered list of model
identifiers of the transport calls it issued.  The message payloads handed
to the transport are built by `buildMiniMaxUserMessage` /
`buildReviseUserMessage` (verified separately); the route models treat them
as opaque and record only which model was called. -/

/-- JavaScript truthiness test `!apiKey?.trim()`: the key is absent, empty,
or whitespace-only. -/
def apiKeyMissing (k : Option String) : Prop :=
  jsTrim (k.getD "") = ""

instance (k : Option String) : Decidable (apiKeyMissing k) := by
  unfold apiKeyMissing; infer_instance

/-- `Object.values(userInputs).some((v) => v?.trim())`: at least one of the
four fields is non-empty after trimming. -/
def hasUserInputs (ui : UserInputs) : Prop :=
  jsTrim ui.storyline ≠ "" ∨ jsTrim ui.subject ≠ "" ∨
    jsTrim ui.environment ≠ "" ∨ jsTrim ui.mood ≠ ""

instance (ui : UserInputs) : Decidable (hasUserInputs ui) := by
  unfold hasUserInputs; infer_instance

/-- JavaScript property read `j.k` on a parsed JSON value other than
`null`: a key lookup on objects, `undefined` (here `none`) on everything
else. -/
def jsonLookup (j : Json) (k : String) : Option Json :=
  match j with
  | .obj fields => (fields.find? (fun p => p.1 = k)).map (·.2)
  | _ => none

/-- Message of the `TypeError` thrown by a property read on `null`
(platform-defined text; fixed representative). -/
def nullReadMessage (field : String) : String :=
  "Cannot read properties of null (reading '" ++ field ++ "')"

/-- Outcome of the generate route: the JSON response body
(`prompts` exactly as extracted, plus the optional raw vision-stage value)
or an error with its HTTP status. -/
inductive GenOutcome where
  | ok : (prompts : List Json) → (visualStyleCues : Option Json) → GenOutcome
  | err : (status : Nat) → (message : String) → GenOutcome
deriving Repr

/-- Step 2 of the generate route (lines 80–109 of
src/app/api/generate/route.ts): call the generation model, extract, check
`Array.isArray(parsed.prompts) && parsed.prompts.length > 0`, and assemble
the response.  `cues` is the (already parsed or absent) vision result,
`priorCalls` the transport calls made so far. -/
def runGeneration (cues : Option Json) (priorCalls : List String)
    (genResult : Except TransportError String) : GenOutcome × List String :=
  let calls := priorCalls ++ [genModel]
  match genResult with
  | .error e => (.err 500 (TransportError.message e), calls)
  | .ok txt =>
    match parseJsonResponse txt.data with
    | .error pe => (.err 500 (ParseError.message pe), calls)
    | .ok parsed =>
      match parsed with
      | .null => (.err 500 (nullReadMessage "prompts"), calls)
      | _ =>
        match jsonLookup parsed "prompts" with
        | some (.arr (p :: ps)) => (.ok (p :: ps) cues, calls)
        | _ => (.err 500 "Model returned no prompts. Please try again.", calls)

/-- The `POST` handler of src/app/api/generate/route.ts: credential check,
inputs-presence check, optional vision stage (parse failures caught and
ignored; transport failures propagate to the outer catch), then the
generation stage.  `visionResult` / `genResult` are the oracles for the two
transport call sites. -/
def generatePOST (apiKey : Option String) (images : List ImageInput)
    (userInputs : UserInputs) (promptCount : Int)
    (visionResult genResult : Except TransportError String) :
    GenOutcome × List String :=
  if apiKeyMissing apiKey then
    (.err 400 "API key is required", [])
  else if images = [] ∧ ¬ hasUserInputs userInputs then
    (.err 400 "Provide reference images or describe your concept to get started", [])
  else if images = [] then
    runGeneration none [] genResult
  else
    match visionResult with
    | .error e => (.err 500 (TransportError.message e), [visionModel])
    | .ok txt =>
      runGeneration ((parseJsonResponse txt.data).toOption) [visionModel] genResult

/-- Outcome of the revise route: the replacement prompt text or an error
with its HTTP status. -/
inductive ReviseOutcome where
  | ok : (prompt : String) → ReviseOutcome
  | err : (status : Nat) → (message : String) → ReviseOutcome
deriving Repr

/-- The `POST` handler of src/app/api/revise/route.ts: environment
credential check, required-fields check, one generation-model call, extract,
then the `!parsed.prompt?.trim()` emptiness check (a `TypeError` from
`.trim()` on a non-string, or from a property read on `null`, propagates to
the outer catch). -/
def revisePOST (envApiKey : Option String) (prompt lab revisionNote : String)
    (userInputs : UserInputs) (visualStyleCues : Option VisualStyleCues)
    (reviseResult : Except TransportError String) : ReviseOutcome × List String :=
  if apiKeyMissing envApiKey then
    (.err 500 "OPENROUTER_API_KEY is not set. Add it to your .env.local file.", [])
  else if jsTrim prompt = "" ∨ jsTrim revisionNote = "" then
    (.err 400 "Both prompt and revisionNote are required.", [])
  else
    let _userMessage :=
      buildReviseUserMessage prompt lab revisionNote userInputs visualStyleCues
    let calls := [genModel]
    match reviseResult with
    | .error e => (.err 500 (TransportError.message e), calls)
    | .ok txt =>
      match parseJsonResponse txt.data with
      | .error pe => (.err 500 (ParseError.message pe), calls)
      | .ok parsed =>
        match parsed with
        | .null => (.err 500 (nullReadMessage "prompt"), calls)
        | _ =>
          match jsonLookup parsed "prompt" with
          | none => (.err 500 "Model returned an empty prompt. Please try again.", calls)
          | some .null => (.err 500 "Model returned an empty prompt. Please try again.", calls)
          | some (.str s) =>
            if jsTrim s = "" then
              (.err 500 "Model returned an empty prompt. Please try again.", calls)
            else (.ok s, calls)
          | some _ =>
            (.err 500 "parsed.prompt?.trim is not a function", calls)


/-! ## Derived text predicates and spec-side decompositions -/

/-- `p` occurs as a contiguous segment of `msg`. -/
def containsSeg (msg p : List Char) : Prop := ∃ a b, msg = a ++ p ++ b

/-- The JSON-object text `\x7b mid \x7d` considered by the wrapping claims. -/
def jObjText (mid : List Char) : List Char :=
  lbraceChar :: mid ++ [rbraceChar]

/-- `"```json\n" + T + "\n```"`: the fenced wrapping of a text. -/
def fenceWrap (t : List Char) : List Char :=
  "```json\n".data ++ t ++ "\n```".data

/-- `"here is the result:\n" + T + "\nthanks"`: the prose wrapping of a
text. -/
def proseWrap (t : List Char) : List Char :=
  "here is the result:\n".data ++ t ++ "\nthanks".data

/-- The lines emitted for the four user fields, shared verbatim between the
generation and revision builders: one labeled line per non-empty field. -/
def userFieldLines (ui : UserInputs) : List String :=
  (if jsTrim ui.storyline ≠ "" then ["Storyline/Concept: " ++ ui.storyline] else []) ++
  (if jsTrim ui.subject ≠ "" then ["Subject: " ++ ui.subject] else []) ++
  (if jsTrim ui.environment ≠ "" then ["Environment: " ++ ui.environment] else []) ++
  (if jsTrim ui.mood ≠ "" then ["Mood/Feeling: " ++ ui.mood] else [])

/-- The all-fields-empty fallback directive of the generation builder. -/
def noInputsFallback (ui : UserInputs) : List String :=
  if jsTrim ui.storyline = "" ∧ jsTrim ui.subject = "" ∧ jsTrim ui.environment = "" ∧
      jsTrim ui.mood = "" then
    ["(No specific inputs provided — derive subject and environment from the visual reference)"]
  else []

/-- The visual-reference block of the revision builder. -/
def reviseCueLines : Option VisualStyleCues → List String
  | none => []
  | some c =>
    ["", "=== VISUAL REFERENCE (from user-selected images) ===", c.description,
     "Color Palette: " ++ String.intercalate ", " c.hexPalette] ++
    (if c.cinematicKeywords.length > 0 then
      ["Cinematic Keywords: " ++ String.intercalate " | " c.cinematicKeywords]
    else [])


/-! ## Supporting lemmas -/

theorem findSub_shift (pat xs ys : List Char)
    (h : ∀ i, i < xs.length → ¬ pat <+: (xs.drop i ++ ys)) :
    findSub pat (xs ++ ys) = (findSub pat ys).map (· + xs.length) := by
  induction xs with
  | nil =>
    cases hfs : findSub pat ys <;> simp [hfs]
  | cons x xs ih =>
    have h0 : ¬ pat <+: (x :: (xs ++ ys)) := by
      have := h 0 (by simp)
      simpa using this
    have hrec := ih (fun i hi => by
      have := h (i + 1) (by simpa using Nat.succ_lt_succ hi)
      simpa using this)
    show findSub pat (x :: (xs ++ ys)) = _
    rw [findSub, if_neg h0, hrec]
    cases hfs : findSub pat ys with
    | none => simp [hfs]
    | some a => simp [hfs]; omega

theorem findSub_eq_none (pat cs : List Char) (h : ∀ i, ¬ pat <+: cs.drop i) :
    findSub pat cs = none := by
  induction cs with
  | nil =>
    have := h 0
    simp only [List.drop_nil] at this
    rw [findSub, if_neg this]
  | cons c rest ih =>
    have h0 : ¬ pat <+: (c :: rest) := by simpa using h 0
    rw [findSub, if_neg h0, ih (fun i => by simpa using h (i + 1))]
    rfl

theorem not_pre_of_findSub_none (pat cs : List Char) (h : findSub pat cs = none) :
    ∀ i, ¬ pat <+: cs.drop i := by
  induction cs with
  | nil =>
    intro i hp
    rw [List.drop_nil] at hp
    have : pat = [] := List.prefix_nil.mp hp
    rw [findSub, if_pos (this ▸ List.nil_prefix)] at h
    exact Option.noConfusion h
  | cons c rest ih =>
    intro i
    rw [findSub] at h
    by_cases hp : pat <+: (c :: rest)
    · rw [if_pos hp] at h; exact Option.noConfusion h
    · rw [if_neg hp] at h
      have hrest : findSub pat rest = none := by
        cases hfs : findSub pat rest with
        | none => rfl
        | some a => rw [hfs] at h; exact Option.noConfusion h
      cases i with
      | zero => simpa using hp
      | succ i => simpa using ih hrest i

theorem pre_of_append_of_le (p a b : List Char) (h : p <+: a ++ b)
    (hl : p.length ≤ a.length) : p <+: a := by
  have h1 : p = (a ++ b).take p.length := List.prefix_iff_eq_take.mp h
  have h2 : (a ++ b).take p.length = a.take p.length :=
    List.take_append_of_le_length hl
  have h3 : p = a.take p.length := h1.trans h2
  refine ⟨a.drop p.length, ?_⟩
  nth_rewrite 1 [h3]
  exact List.take_append_drop _ _

theorem headed_not_pre (c : Char) (p d rest l : List Char)
    (hd : d ≠ []) (hsub : d ⊆ l) (hc : c ∉ l) : ¬ (c :: p) <+: (d ++ rest) := by
  intro hpre
  match d, hd with
  | a :: d', _ =>
    obtain ⟨hca, _⟩ := List.cons_prefix_cons.mp hpre
    exact hc (hca ▸ hsub (List.mem_cons_self a d'))

theorem tbt_not_pre_append (d ys : List Char) (hne : d ≠ [])
    (hno : ¬ tbt <+: d) (hlast : d.getLast? ≠ some btChar) :
    ¬ tbt <+: (d ++ ys) := by
  intro hp
  match d, hne with
  | [a], _ =>
    obtain ⟨ha, _⟩ := List.cons_prefix_cons.mp hp
    exact hlast (by simp [← ha])
  | [a, b], _ =>
    obtain ⟨_, h2⟩ := List.cons_prefix_cons.mp hp
    obtain ⟨hb, _⟩ := List.cons_prefix_cons.mp h2
    exact hlast (by simp [← hb])
  | a :: b :: c2 :: rest', _ =>
    exact hno (pre_of_append_of_le _ _ _ hp (by simp [tbt]))

theorem getLast?_of_drop (l : List Char) (i : Nat) (h : l.drop i ≠ []) :
    (l.drop i).getLast? = l.getLast? := by
  conv_rhs => rw [← List.take_append_drop i l]
  rw [List.getLast?_append_of_ne_nil _ h]

theorem jObjText_getLast (mid : List Char) :
    (jObjText mid).getLast? = some rbraceChar := by
  show (lbraceChar :: mid ++ [rbraceChar]).getLast? = some rbraceChar
  rw [show lbraceChar :: mid ++ [rbraceChar] = (lbraceChar :: mid) ++ [rbraceChar] from rfl]
  exact List.getLast?_concat _

theorem no_tbt_in_objText_nl (mid : List Char)
    (hno : findSub tbt (jObjText mid) = none) :
    ∀ i, ¬ tbt <+: ((jObjText mid) ++ ['\n']).drop i := by
  intro i hp
  have ht := not_pre_of_findSub_none _ _ hno
  rw [List.drop_append_eq_append_drop] at hp
  by_cases hd : (jObjText mid).drop i = []
  · rw [hd, List.nil_append] at hp
    cases hn : i - (jObjText mid).length with
    | zero =>
      rw [hn, List.drop_zero] at hp
      obtain ⟨ha, _⟩ := List.cons_prefix_cons.mp hp
      exact absurd ha (by decide)
    | succ n =>
      rw [hn] at hp
      simp only [List.drop_succ_cons, List.drop_nil] at hp
      have : tbt = [] := List.prefix_nil.mp hp
      exact absurd this (by simp [tbt])
  · have hle : i ≤ (jObjText mid).length := by
      by_contra hlt
      exact hd (List.drop_eq_nil_iff.mpr (by omega))
    have hdrop : (['\n'] : List Char).drop (i - (jObjText mid).length) = ['\n'] := by
      rw [Nat.sub_eq_zero_of_le hle, List.drop_zero]
    rw [hdrop] at hp
    exact tbt_not_pre_append _ _ hd (ht i)
      (by rw [getLast?_of_drop _ _ hd, jObjText_getLast]; decide) hp

theorem fenceWrap_cons (t : List Char) :
    fenceWrap t = btChar :: btChar :: btChar :: 'j' :: 's' :: 'o' :: 'n' :: '\n' ::
      (t ++ '\n' :: tbt) := by
  show "```json\n".data ++ t ++ "\n```".data = _
  rw [List.append_assoc]
  rfl

theorem findSub_fenceWrap_zero (t : List Char) :
    findSub tbt (fenceWrap t) = some 0 := by
  rw [fenceWrap_cons, findSub, if_pos]
  exact ⟨'j' :: 's' :: 'o' :: 'n' :: '\n' :: (t ++ '\n' :: tbt), rfl⟩

theorem matchCodeBlock_fenceWrap (mid : List Char)
    (hno : findSub tbt (jObjText mid) = none) :
    matchCodeBlock (fenceWrap (jObjText mid)) = some (jObjText mid ++ ['\n']) := by
  have hT : jObjText mid = lbraceChar :: (mid ++ [rbraceChar]) := rfl
  have hdrop3 : (fenceWrap (jObjText mid)).drop (0 + 3) =
      'j' :: 's' :: 'o' :: 'n' :: '\n' :: (jObjText mid ++ '\n' :: tbt) := by
    rw [fenceWrap_cons]; rfl
  have htag : (['j', 's', 'o', 'n'] : List Char).isPrefixOf
      ('j' :: 's' :: 'o' :: 'n' :: '\n' :: (jObjText mid ++ '\n' :: tbt)) = true := by
    simp [List.isPrefixOf]
  have hdrop4 : ('j' :: 's' :: 'o' :: 'n' :: '\n' :: (jObjText mid ++ '\n' :: tbt)).drop 4 =
      '\n' :: (jObjText mid ++ '\n' :: tbt) := rfl
  have hws : ('\n' :: (jObjText mid ++ '\n' :: tbt)).dropWhile Char.isWhitespace =
      (jObjText mid ++ ['\n']) ++ tbt := by
    rw [List.dropWhile_cons, if_pos (by decide), hT, List.cons_append,
      List.dropWhile_cons, if_neg (by decide)]
    simp
  have hshift : findSub tbt ((jObjText mid ++ ['\n']) ++ tbt) =
      some (jObjText mid ++ ['\n']).length := by
    have hself : findSub tbt tbt = some 0 := by
      rw [show tbt = btChar :: [btChar, btChar] from rfl, findSub, if_pos]
      exact ⟨[], by simp⟩
    rw [findSub_shift, hself]
    · simp
    · intro i hi hp
      have hd : (jObjText mid ++ ['\n']).drop i ≠ [] := by
        rw [Ne, List.drop_eq_nil_iff]; omega
      exact tbt_not_pre_append _ _ hd
        (no_tbt_in_objText_nl mid hno i)
        (by
          rw [getLast?_of_drop _ _ hd, List.getLast?_concat]
          decide) hp
  rw [matchCodeBlock, findSub_fenceWrap_zero]
  simp only [hdrop3, htag, if_true, hdrop4, hws, hshift, List.take_left]

theorem parseValue_badHead (fuel : Nat) (c : Char) (cs : List Char)
    (hws : c.isWhitespace = false) (hn : c ≠ 'n') (ht : c ≠ 't') (hf : c ≠ 'f')
    (hq : c ≠ '"') (hb : c ≠ lbraceChar) (hk : c ≠ '[') (hm : c ≠ '-')
    (hd : c.isDigit = false) :
    parseValue fuel (c :: cs) = none := by
  cases fuel with
  | zero => rfl
  | succ fuel =>
    rw [parseValue, List.dropWhile_cons, if_neg (by simp [hws])]
    simp only [if_neg hn, if_neg ht, if_neg hf, if_neg hq, if_neg hb, if_neg hk]
    rw [if_neg (by simp [hm, hd])]

theorem Json.parse_badHead (c : Char) (cs : List Char)
    (hws : c.isWhitespace = false) (hn : c ≠ 'n') (ht : c ≠ 't') (hf : c ≠ 'f')
    (hq : c ≠ '"') (hb : c ≠ lbraceChar) (hk : c ≠ '[') (hm : c ≠ '-')
    (hd : c.isDigit = false) :
    Json.parse (c :: cs) = none := by
  rw [Json.parse, parseValue_badHead _ _ _ hws hn ht hf hq hb hk hm hd]

theorem trimChars_objText_nl (mid : List Char) :
    trimChars (jObjText mid ++ ['\n']) = jObjText mid := by
  have hT : jObjText mid = lbraceChar :: (mid ++ [rbraceChar]) := rfl
  rw [trimChars]
  have h1 : (jObjText mid ++ ['\n']).dropWhile Char.isWhitespace =
      jObjText mid ++ ['\n'] := by
    rw [hT, List.cons_append, List.dropWhile_cons, if_neg (by decide)]
  rw [h1]
  have h2 : (jObjText mid ++ ['\n']).reverse = '\n' :: (jObjText mid).reverse := by
    rw [List.reverse_append]; rfl
  rw [h2, List.dropWhile_cons, if_pos (by decide)]
  have h3 : (jObjText mid).reverse = rbraceChar :: (lbraceChar :: mid).reverse := by
    rw [show jObjText mid = (lbraceChar :: mid) ++ [rbraceChar] from rfl,
      List.reverse_append]
    rfl
  rw [h3, List.dropWhile_cons, if_neg (by decide), ← h3, List.reverse_reverse]

theorem proseWrap_cons (t : List Char) :
    proseWrap t = 'h' :: ("ere is the result:\n".data ++ (t ++ "\nthanks".data)) := by
  show "here is the result:\n".data ++ t ++ "\nthanks".data = _
  rw [List.append_assoc]
  rfl

theorem findSub_tbt_three_part (pre t suf : List Char)
    (hpre : btChar ∉ pre) (hsuf : btChar ∉ suf)
    (ht : ∀ i, ¬ tbt <+: t.drop i)
    (hlast : t.getLast? ≠ some btChar) :
    findSub tbt (pre ++ (t ++ suf)) = none := by
  apply findSub_eq_none
  intro i hp
  rw [List.drop_append_eq_append_drop] at hp
  by_cases hd1 : pre.drop i = []
  · rw [hd1, List.nil_append, List.drop_append_eq_append_drop] at hp
    by_cases hd2 : t.drop (i - pre.length) = []
    · rw [hd2, List.nil_append] at hp
      by_cases hd3 : suf.drop (i - pre.length - t.length) = []
      · rw [hd3] at hp
        have h0 : tbt = [] := List.prefix_nil.mp hp
        exact absurd h0 (by simp [tbt])
      · have h1 := headed_not_pre btChar [btChar, btChar]
          (suf.drop (i - pre.length - t.length)) [] suf hd3 (List.drop_subset _ _) hsuf
        rw [List.append_nil] at h1
        exact h1 hp
    · exact tbt_not_pre_append _ _ hd2 (ht (i - pre.length))
        (by rw [getLast?_of_drop _ _ hd2]; exact hlast) hp
  · exact headed_not_pre btChar [btChar, btChar] (pre.drop i) _ pre hd1
      (List.drop_subset _ _) hpre hp

theorem matchCodeBlock_proseWrap (mid : List Char)
    (hno : findSub tbt (jObjText mid) = none) :
    matchCodeBlock (proseWrap (jObjText mid)) = none := by
  have hfs : findSub tbt (proseWrap (jObjText mid)) = none := by
    rw [show proseWrap (jObjText mid) =
      "here is the result:\n".data ++ (jObjText mid ++ "\nthanks".data) by
        rw [proseWrap, List.append_assoc]]
    exact findSub_tbt_three_part _ _ _ (by decide) (by decide)
      (not_pre_of_findSub_none _ _ hno)
      (by rw [jObjText_getLast]; decide)
  rw [matchCodeBlock, hfs]

theorem single_pre_of_cons (c : Char) (rest : List Char) : [c] <+: (c :: rest) :=
  ⟨rest, rfl⟩

theorem matchBraceSpan_proseWrap (mid : List Char) :
    matchBraceSpan (proseWrap (jObjText mid)) = some (jObjText mid) := by
  have hpre20 : ("here is the result:\n".data).length = 20 := by decide
  have hsuf7 : ("\nthanks".data).length = 7 := by decide
  have hTlen : (jObjText mid).length = mid.length + 2 := by
    show (lbraceChar :: (mid ++ [rbraceChar])).length = mid.length + 2
    simp
  have hassoc : proseWrap (jObjText mid) =
      "here is the result:\n".data ++ (jObjText mid ++ "\nthanks".data) := by
    rw [proseWrap, List.append_assoc]
  have hfind1 : findSub [lbraceChar] (proseWrap (jObjText mid)) = some 20 := by
    have hobl : ∀ i, i < ("here is the result:\n".data).length →
        ¬ [lbraceChar] <+: (("here is the result:\n".data).drop i ++
          (jObjText mid ++ "\nthanks".data)) := by
      intro i hi hp
      have hd : ("here is the result:\n".data).drop i ≠ [] := by
        rw [Ne, List.drop_eq_nil_iff]; omega
      exact headed_not_pre lbraceChar [] _ _ "here is the result:\n".data hd
        (List.drop_subset _ _) (by decide) hp
    rw [hassoc, findSub_shift _ _ _ hobl,
      show jObjText mid ++ "\nthanks".data =
        lbraceChar :: ((mid ++ [rbraceChar]) ++ "\nthanks".data) from rfl,
      findSub, if_pos (single_pre_of_cons _ _)]
    simp [hpre20]
  have hrev : (proseWrap (jObjText mid)).reverse =
      ("\nthanks".data).reverse ++ ((jObjText mid).reverse ++
        ("here is the result:\n".data).reverse) := by
    rw [hassoc, List.reverse_append, List.reverse_append, List.append_assoc]
  have hTrev : (jObjText mid).reverse = rbraceChar :: (lbraceChar :: mid).reverse := by
    rw [show jObjText mid = (lbraceChar :: mid) ++ [rbraceChar] from rfl,
      List.reverse_append]
    rfl
  have hfind2 : findSub [rbraceChar] ((proseWrap (jObjText mid)).reverse) = some 7 := by
    have hobl : ∀ i, i < (("\nthanks".data).reverse).length →
        ¬ [rbraceChar] <+: ((("\nthanks".data).reverse).drop i ++
          ((jObjText mid).reverse ++ ("here is the result:\n".data).reverse)) := by
      intro i hi hp
      have hd : (("\nthanks".data).reverse).drop i ≠ [] := by
        rw [Ne, List.drop_eq_nil_iff]; omega
      exact headed_not_pre rbraceChar [] _ _ ("\nthanks".data).reverse hd
        (List.drop_subset _ _) (by decide) hp
    rw [hrev, findSub_shift _ _ _ hobl, hTrev,
      show (rbraceChar :: (lbraceChar :: mid).reverse) ++
          ("here is the result:\n".data).reverse =
        rbraceChar :: ((lbraceChar :: mid).reverse ++
          ("here is the result:\n".data).reverse) from rfl,
      findSub, if_pos (single_pre_of_cons _ _)]
    simp
  have hlen : (proseWrap (jObjText mid)).length = mid.length + 29 := by
    rw [hassoc]
    simp [hpre20, hsuf7, hTlen]
  rw [matchBraceSpan, hfind1, hfind2]
  simp only [hlen]
  rw [if_pos (by omega)]
  have hj1 : mid.length + 29 - 1 - 7 + 1 =
      ("here is the result:\n".data ++ jObjText mid).length := by
    simp [hpre20, hTlen]
  have htake : (proseWrap (jObjText mid)).take (mid.length + 29 - 1 - 7 + 1) =
      "here is the result:\n".data ++ jObjText mid := by
    rw [hj1, show proseWrap (jObjText mid) =
      ("here is the result:\n".data ++ jObjText mid) ++ "\nthanks".data from rfl]
    exact List.take_left _ _
  rw [htake, show (20 : Nat) = ("here is the result:\n".data).length from hpre20.symm]
  rw [List.drop_left]

theorem userFieldLines_eq_filterMap (ui : UserInputs) :
    userFieldLines ui =
      ([("Storyline/Concept: ", ui.storyline), ("Subject: ", ui.subject),
        ("Environment: ", ui.environment), ("Mood/Feeling: ", ui.mood)].filterMap
        (fun q => if jsTrim q.2 = "" then none else some (q.1 ++ q.2))) := by
  rw [userFieldLines]
  by_cases h1 : jsTrim ui.storyline = "" <;> by_cases h2 : jsTrim ui.subject = "" <;>
    by_cases h3 : jsTrim ui.environment = "" <;> by_cases h4 : jsTrim ui.mood = "" <;>
    simp [h1, h2, h3, h4, List.filterMap]

theorem containsSeg_of_mem_joinNl (s : String) (ls : List String) (h : s ∈ ls) :
    containsSeg (joinNl ls) s.data := by
  induction ls with
  | nil => simp at h
  | cons x rest ih =>
    rcases List.mem_cons.mp h with rfl | hmem
    · cases rest with
      | nil => exact ⟨[], [], by simp [joinNl]⟩
      | cons y t => exact ⟨[], '\n' :: joinNl (y :: t), by simp [joinNl]⟩
    · cases rest with
      | nil => simp at hmem
      | cons y t =>
        obtain ⟨a, b, hab⟩ := ih hmem
        refine ⟨x.data ++ '\n' :: a, b, ?_⟩
        have hx : joinNl (x :: y :: t) = x.data ++ '\n' :: joinNl (y :: t) := rfl
        rw [hx, hab]
        simp

theorem label_append_ne (s1 s2 s m : String) (c1 c2 : Char)
    (h1 : s1.data.head? = some c1) (h2 : s2.data.head? = some c2) (hne : c1 ≠ c2) :
    s1 ++ s ≠ s2 ++ m := by
  intro he
  have hd : (s1 ++ s).data = (s2 ++ m).data := congrArg String.data he
  rw [String.data_append, String.data_append] at hd
  cases hs1 : s1.data with
  | nil => rw [hs1] at h1; exact Option.noConfusion h1
  | cons a r =>
    cases hs2 : s2.data with
    | nil => rw [hs2] at h2; exact Option.noConfusion h2
    | cons b r2 =>
      rw [hs1, hs2] at hd
      rw [hs1] at h1
      rw [hs2] at h2
      have hab : a = b := (List.cons.injEq _ _ _ _).mp hd |>.1
      have hac : a = c1 := Option.some.inj h1
      have hbc : b = c2 := Option.some.inj h2
      exact hne (hac ▸ hbc ▸ hab)

theorem apiKey_present_some (k : String) (hk : jsTrim k ≠ "") :
    ¬ apiKeyMissing (some k) := by
  simp only [apiKeyMissing, Option.getD_some]
  exact hk

theorem generatePOST_vision_path (k : String) (hk : jsTrim k ≠ "")
    (imgs : List ImageInput) (hi : imgs ≠ []) (ui : UserInputs) (n : Int)
    (vr gr : Except TransportError String) :
    generatePOST (some k) imgs ui n vr gr =
      match vr with
      | .error e => (.err 500 (TransportError.message e), [visionModel])
      | .ok txt =>
        runGeneration ((parseJsonResponse txt.data).toOption) [visionModel] gr := by
  rw [generatePOST.eq_def, if_neg (apiKey_present_some k hk),
    if_neg (fun hc => hi hc.1), if_neg hi]

theorem generatePOST_noimg_path (k : String) (hk : jsTrim k ≠ "") (ui : UserInputs)
    (hu : hasUserInputs ui) (n : Int) (vr gr : Except TransportError String) :
    generatePOST (some k) [] ui n vr gr = runGeneration none [] gr := by
  rw [generatePOST.eq_def, if_neg (apiKey_present_some k hk),
    if_neg (fun hc => hc.2 hu), if_pos rfl]

theorem runGeneration_calls (cues : Option Json) (pc : List String)
    (gr : Except TransportError String) :
    (runGeneration cues pc gr).2 = pc ++ [genModel] := by
  unfold runGeneration
  split
  · rfl
  · split
    · rfl
    · split
      · rfl
      · split <;> rfl

theorem runGeneration_not_err400 (cues : Option Json) (pc : List String)
    (gr : Except TransportError String) (m : String) :
    (runGeneration cues pc gr).1 ≠ GenOutcome.err 400 m := by
  unfold runGeneration
  split
  · simp
  · split
    · simp
    · split
      · simp
      · split <;> simp

theorem runGeneration_ok_cues (cues : Option Json) (pc : List String)
    (gr : Except TransportError String) (ps : List Json) (c' : Option Json)
    (h : (runGeneration cues pc gr).1 = GenOutcome.ok ps c') : c' = cues := by
  unfold runGeneration at h
  split at h
  · exact absurd h (by simp)
  · split at h
    · exact absurd h (by simp)
    · split at h
      · exact absurd h (by simp)
      · split at h
        · simp only [GenOutcome.ok.injEq] at h
          exact h.2.symm
        · exact absurd h (by simp)


/-! ## The claims -/

/-- Claim C1: in the Generate pipeline a parse failure of the vision-analysis
response is non-fatal — the pipeline proceeds into the generation stage with
`visualStyleCues` absent and can still return a successful result — whereas a
transport failure (timeout, gateway error, empty response) during the vision
call aborts the whole pipeline with a 500 error after the single vision call,
and both transport failures and parse failures during the generation call are
fatal. -/
theorem generate_error_policy (k : String) (hk : jsTrim k ≠ "")
    (imgs : List ImageInput) (hi : imgs ≠ []) (ui : UserInputs) (n : Int) :
    (∀ (vtxt : String) (pe : ParseError), parseJsonResponse vtxt.data = .error pe →
        (∀ gr, generatePOST (some k) imgs ui n (.ok vtxt) gr =
          runGeneration none [visionModel] gr)
      ∧ generatePOST (some k) imgs ui n (.ok vtxt)
          (.ok "\x7b\"prompts\":[\x7b\"label\":\"L\",\"prompt\":\"p\"\x7d]\x7d") =
          (GenOutcome.ok [Json.obj [("label", Json.str "L"), ("prompt", Json.str "p")]]
            none, [visionModel, genModel]))
  ∧ (∀ (e : TransportError) (gr : Except TransportError String),
      generatePOST (some k) imgs ui n (.error e) gr =
        (.err 500 (TransportError.message e), [visionModel]))
  ∧ (∀ (vtxt : String) (e : TransportError),
      generatePOST (some k) imgs ui n (.ok vtxt) (.error e) =
        (.err 500 (TransportError.message e), [visionModel, genModel]))
  ∧ (∀ (vtxt gtxt : String) (pe : ParseError), parseJsonResponse gtxt.data = .error pe →
      generatePOST (some k) imgs ui n (.ok vtxt) (.ok gtxt) =
        (.err 500 (ParseError.message pe), [visionModel, genModel])) := by
  refine ⟨?_, ?_, ?_, ?_⟩
  · intro vtxt pe hpe
    constructor
    · intro gr
      rw [generatePOST_vision_path k hk imgs hi ui n (.ok vtxt) gr]
      simp only [hpe, Except.toOption]
    · rw [generatePOST_vision_path k hk imgs hi ui n (.ok vtxt) _]
      simp only [hpe, Except.toOption]
      rfl
  · intro e gr
    rw [generatePOST_vision_path k hk imgs hi ui n (.error e) gr]
  · intro vtxt e
    rw [generatePOST_vision_path k hk imgs hi ui n (.ok vtxt) (.error e)]
    rfl
  · intro vtxt gtxt pe hpe
    rw [generatePOST_vision_path k hk imgs hi ui n (.ok vtxt) (.ok gtxt)]
    show runGeneration ((parseJsonResponse vtxt.data).toOption) [visionModel]
      (.ok gtxt) = _
    unfold runGeneration
    simp only [hpe]
    rfl

/-- Witness for `generate_error_policy` at concrete inputs. -/
theorem generate_error_policy_witness :
    jsTrim "sk-or-v1-abc" ≠ "" ∧
    ([ImageInput.url "https://img.example/x.jpg"] : List ImageInput) ≠ [] ∧
    parseJsonResponse "oops".data = .error .noJson ∧
    generatePOST (some "sk-or-v1-abc") [ImageInput.url "https://img.example/x.jpg"]
      ⟨"a story", "", "", ""⟩ 3 (.ok "oops")
      (.ok "\x7b\"prompts\":[\x7b\"label\":\"L\",\"prompt\":\"p\"\x7d]\x7d") =
      (GenOutcome.ok [Json.obj [("label", Json.str "L"), ("prompt", Json.str "p")]]
        none, [visionModel, genModel]) := by
  refine ⟨by decide, by decide, by rfl, ?_⟩
  exact ((generate_error_policy "sk-or-v1-abc" (by decide) _ (by decide) ⟨"a story", "", "", ""⟩ 3).1
    "oops" .noJson rfl).2

/-- Claim C2: a Generate request with an empty image list and all four user
fields empty or whitespace-only fails with a 400 validation error and makes
zero transport calls; conversely, at least one image or one non-empty field
suffices to pass the inputs-presence check (the request never fails with its
error message). -/
theorem generate_inputs_precondition :
    (∀ (k : Option String) (ui : UserInputs) (n : Int)
        (vr gr : Except TransportError String), ¬ hasUserInputs ui →
      ∃ m, generatePOST k [] ui n vr gr = (GenOutcome.err 400 m, []))
  ∧ (∀ (k : Option String) (imgs : List ImageInput) (ui : UserInputs) (n : Int)
        (vr gr : Except TransportError String), (imgs ≠ [] ∨ hasUserInputs ui) →
      (generatePOST k imgs ui n vr gr).1 ≠
        GenOutcome.err 400
          "Provide reference images or describe your concept to get started") := by
  constructor
  · intro k ui n vr gr hu
    rw [generatePOST.eq_def]
    by_cases hak : apiKeyMissing k
    · exact ⟨"API key is required", by rw [if_pos hak]⟩
    · exact ⟨"Provide reference images or describe your concept to get started",
        by rw [if_neg hak, if_pos ⟨rfl, hu⟩]⟩
  · intro k imgs ui n vr gr hor
    rw [generatePOST.eq_def]
    by_cases hak : apiKeyMissing k
    · rw [if_pos hak]
      simp
    · rw [if_neg hak, if_neg (by tauto)]
      by_cases hi : imgs = []
      · rw [if_pos hi]
        exact runGeneration_not_err400 _ _ _ _
      · rw [if_neg hi]
        cases vr with
        | error e => simp
        | ok txt => exact runGeneration_not_err400 _ _ _ _

/-- Witness for `generate_inputs_precondition` at concrete inputs. -/
theorem generate_inputs_precondition_witness :
    ¬ hasUserInputs ⟨"", " ", "", ""⟩ ∧
    (∃ m, generatePOST none [] ⟨"", " ", "", ""⟩ 4 (.error .timeout) (.error .timeout) =
      (GenOutcome.err 400 m, [])) ∧
    (generatePOST (some "k") [ImageInput.url "u"] ⟨"", " ", "", ""⟩ 4 (.error .timeout)
      (.error .timeout)).1 ≠
      GenOutcome.err 400 "Provide reference images or describe your concept to get started" :=
  ⟨by decide, generate_inputs_precondition.1 none _ 4 _ _ (by decide),
    generate_inputs_precondition.2 (some "k") _ _ 4 _ _ (Or.inl (by decide))⟩

/-- Claim C3 (code bug): on the input
` ```\nnot json\n```\n{"a":1} ` the extractor finds a fenced block whose
interior fails to parse and throws that `SyntaxError` without attempting the
brace-span strategy, although the spec (and the function's own doc comment,
"@throws if none of the three strategies succeeds") prescribes falling
through — `parseJsonResponseSpec`, which follows the spec's words, recovers
the object `{"a": 1}` from the brace span of the same input. -/
theorem parse_fence_interior_failure_is_fatal :
    parseJsonResponse "```\nnot json\n```\n\x7b\"a\":1\x7d".data = .error .syntaxError ∧
    parseJsonResponseSpec "```\nnot json\n```\n\x7b\"a\":1\x7d".data =
      .ok (Json.obj [("a", Json.num "1")]) ∧
    matchBraceSpan "```\nnot json\n```\n\x7b\"a\":1\x7d".data =
      some "\x7b\"a\":1\x7d".data ∧
    Json.parse "\x7b\"a\":1\x7d".data = some (Json.obj [("a", Json.num "1")]) :=
  ⟨rfl, rfl, rfl, rfl⟩

/-- Claim C4 (counterexample): extraction is not invariant under wrapping for
every directly-parseable text.  For the number text `5`, the prose-embedded
wrapping fails to extract although the bare text extracts; for an object text
containing a triple-backtick run inside a string, the fenced wrapping fails
although the bare text extracts. -/
theorem extract_wrapping_invariance_fails :
    (parseJsonResponse "5".data = .ok (Json.num "5") ∧
     parseJsonResponse (proseWrap "5".data) = .error .noJson) ∧
    (parseJsonResponse "\x7b\"a\":\"x``` y```\"\x7d".data =
        .ok (Json.obj [("a", Json.str "x``` y```")]) ∧
     parseJsonResponse (fenceWrap "\x7b\"a\":\"x``` y```\"\x7d".data) =
        .error .syntaxError) :=
  ⟨⟨rfl, rfl⟩, ⟨rfl, rfl⟩⟩

/-- Claim C4 (amended): extraction is invariant under wrapping for JSON-object
texts.  For every text `{ mid }` that `JSON.parse` accepts and that contains
no triple-backtick run, extracting the bare text, the ```json-fenced wrapping,
and the prose-embedded wrapping all yield the same object. -/
theorem extract_wrapping_invariance_for_objects (mid : List Char) (j : Json)
    (hparse : Json.parse (jObjText mid) = some j)
    (hno : findSub tbt (jObjText mid) = none) :
    parseJsonResponse (jObjText mid) = .ok j
  ∧ parseJsonResponse (fenceWrap (jObjText mid)) = .ok j
  ∧ parseJsonResponse (proseWrap (jObjText mid)) = .ok j := by
  refine ⟨?_, ?_, ?_⟩
  · rw [parseJsonResponse, hparse]
  · have hfail : Json.parse (fenceWrap (jObjText mid)) = none := by
      rw [fenceWrap_cons]
      exact Json.parse_badHead _ _ (by decide) (by decide) (by decide) (by decide)
        (by decide) (by decide) (by decide) (by decide) (by decide)
    rw [parseJsonResponse]
    simp only [hfail, matchCodeBlock_fenceWrap mid hno, trimChars_objText_nl, hparse]
  · have hfail : Json.parse (proseWrap (jObjText mid)) = none := by
      rw [proseWrap_cons]
      exact Json.parse_badHead _ _ (by decide) (by decide) (by decide) (by decide)
        (by decide) (by decide) (by decide) (by decide) (by decide)
    rw [parseJsonResponse]
    simp only [hfail, matchCodeBlock_proseWrap mid hno, matchBraceSpan_proseWrap mid, hparse]

/-- Witness for `extract_wrapping_invariance_for_objects` at a concrete object text. -/
theorem extract_wrapping_invariance_for_objects_witness :
    Json.parse (jObjText "\"a\": 1".data) = some (Json.obj [("a", Json.num "1")]) ∧
    findSub tbt (jObjText "\"a\": 1".data) = none ∧
    parseJsonResponse (proseWrap (jObjText "\"a\": 1".data)) =
      .ok (Json.obj [("a", Json.num "1")]) :=
  ⟨rfl, rfl, (extract_wrapping_invariance_for_objects "\"a\": 1".data _ rfl rfl).2.2⟩

/-- Claim C5: the generation user-message builder states the exact requested
count in its first line; when cues are present (with the data model's 6–10
cinematic keywords, hence a non-empty list) it emits the description, hex
palette and keyword list first, with the instruction to use the keywords
directly, before the user-inputs block; it emits exactly the non-empty user
fields (never an empty field's label); when all four fields are empty it
emits the derive-from-the-visual-reference directive; and when cues are
absent it states that generation proceeds from user inputs alone. -/
theorem generation_user_message_structure (ui : UserInputs) (n : Int) :
    (∀ c : VisualStyleCues, c.cinematicKeywords ≠ [] →
      buildMiniMaxUserMessageLines ui n (some c) =
        (["Generate exactly " ++ toString n ++ " Flux 2 [pro] image generation prompts.",
          "\n=== VISUAL REFERENCE — PRIMARY SOURCE (from user-selected moodboard images) ===",
          c.description,
          "\nColor Palette: " ++ String.intercalate ", " c.hexPalette,
          "Cinematic Keywords (use these directly in your prompts): " ++
            String.intercalate " | " c.cinematicKeywords,
          "\n=== USER INPUTS (story, subject, concept) ==="] ++
         userFieldLines ui) ++ noInputsFallback ui)
  ∧ (buildMiniMaxUserMessageLines ui n none =
      (["Generate exactly " ++ toString n ++ " Flux 2 [pro] image generation prompts.",
        "\n=== VISUAL REFERENCE: None — generate prompts from user inputs only ===",
        "\n=== USER INPUTS (story, subject, concept) ==="] ++
       userFieldLines ui) ++ noInputsFallback ui)
  ∧ userFieldLines ui =
      ([("Storyline/Concept: ", ui.storyline), ("Subject: ", ui.subject),
        ("Environment: ", ui.environment), ("Mood/Feeling: ", ui.mood)].filterMap
        (fun q => if jsTrim q.2 = "" then none else some (q.1 ++ q.2)))
  ∧ (hasUserInputs ui → noInputsFallback ui = [])
  ∧ (¬ hasUserInputs ui → noInputsFallback ui =
      ["(No specific inputs provided — derive subject and environment from the visual reference)"]) := by
  refine ⟨?_, ?_, userFieldLines_eq_filterMap ui, ?_, ?_⟩
  · intro c hc
    simp only [buildMiniMaxUserMessageLines, userFieldLines, noInputsFallback]
    rw [if_pos (show 0 < c.cinematicKeywords.length from List.length_pos.mpr hc)]
    simp [List.append_assoc]
  · simp only [buildMiniMaxUserMessageLines, userFieldLines, noInputsFallback]
    simp [List.append_assoc]
  · intro h
    rw [noInputsFallback, if_neg]
    unfold hasUserInputs at h
    tauto
  · intro h
    rw [noInputsFallback, if_pos]
    unfold hasUserInputs at h
    tauto

/-- Witness for `generation_user_message_structure` at concrete inputs. -/
theorem generation_user_message_structure_witness :
    (["kw one", "kw two"] : List String) ≠ [] ∧
    buildMiniMaxUserMessageLines ⟨"a story", "", "", ""⟩ 4
      (some ⟨"shared visual language", ["#101820", "#243B55"], ["kw one", "kw two"]⟩) =
      (["Generate exactly " ++ toString (4 : Int) ++
          " Flux 2 [pro] image generation prompts.",
        "\n=== VISUAL REFERENCE — PRIMARY SOURCE (from user-selected moodboard images) ===",
        "shared visual language",
        "\nColor Palette: " ++ String.intercalate ", " ["#101820", "#243B55"],
        "Cinematic Keywords (use these directly in your prompts): " ++
          String.intercalate " | " ["kw one", "kw two"],
        "\n=== USER INPUTS (story, subject, concept) ==="] ++
       userFieldLines ⟨"a story", "", "", ""⟩) ++ noInputsFallback ⟨"a story", "", "", ""⟩ :=
  ⟨by decide, (generation_user_message_structure ⟨"a story", "", "", ""⟩ 4).1
    ⟨"shared visual language", ["#101820", "#243B55"], ["kw one", "kw two"]⟩ (by decide)⟩

/-- Claim C6: the revision user-message contains, in this order, the original
prompt verbatim, the revision instruction verbatim, and then the original
scene context — exactly the non-empty user fields followed by the cues when
present — under a header labeling it as context not to change; a field's
labeled value appears in the emitted context lines iff the field is
non-empty (in particular a non-empty mood string appears verbatim, and an
empty field contributes no line). -/
theorem revision_user_message_structure (p lab note : String) (ui : UserInputs) (cues : Option VisualStyleCues) :
    buildReviseUserMessageLines p lab note ui cues =
      (["Revise the following Flux 2 [pro] prompt according to the revision instruction.",
        "Return ONLY valid JSON: \x7b \"prompt\": \"...\" \x7d",
        "Shot label: " ++ lab,
        "",
        "=== ORIGINAL PROMPT ===",
        p,
        "",
        "=== REVISION INSTRUCTION ===",
        note,
        "",
        "=== ORIGINAL SCENE CONTEXT (do not change unless the instruction requires it) ==="] ++
       userFieldLines ui) ++ reviseCueLines cues
  ∧ containsSeg (buildReviseUserMessage p lab note ui cues) p.data
  ∧ containsSeg (buildReviseUserMessage p lab note ui cues) note.data
  ∧ (jsTrim ui.mood ≠ "" →
      containsSeg (buildReviseUserMessage p lab note ui cues)
        ("Mood/Feeling: " ++ ui.mood).data)
  ∧ (jsTrim ui.mood = "" →
      ∀ s ∈ userFieldLines ui, s ≠ "Mood/Feeling: " ++ ui.mood)
  ∧ userFieldLines ui =
      ([("Storyline/Concept: ", ui.storyline), ("Subject: ", ui.subject),
        ("Environment: ", ui.environment), ("Mood/Feeling: ", ui.mood)].filterMap
        (fun q => if jsTrim q.2 = "" then none else some (q.1 ++ q.2))) := by
  have hstruct : buildReviseUserMessageLines p lab note ui cues =
      (["Revise the following Flux 2 [pro] prompt according to the revision instruction.",
        "Return ONLY valid JSON: \x7b \"prompt\": \"...\" \x7d",
        "Shot label: " ++ lab,
        "",
        "=== ORIGINAL PROMPT ===",
        p,
        "",
        "=== REVISION INSTRUCTION ===",
        note,
        "",
        "=== ORIGINAL SCENE CONTEXT (do not change unless the instruction requires it) ==="] ++
       userFieldLines ui) ++ reviseCueLines cues := by
    cases cues with
    | none =>
      simp [buildReviseUserMessageLines, userFieldLines, reviseCueLines, List.append_assoc]
    | some c =>
      simp [buildReviseUserMessageLines, userFieldLines, reviseCueLines, List.append_assoc]
  refine ⟨hstruct, ?_, ?_, ?_, ?_, userFieldLines_eq_filterMap ui⟩
  · exact containsSeg_of_mem_joinNl p _ (by rw [hstruct]; simp)
  · exact containsSeg_of_mem_joinNl note _ (by rw [hstruct]; simp)
  · intro hm
    refine containsSeg_of_mem_joinNl _ _ ?_
    rw [hstruct]
    have : ("Mood/Feeling: " ++ ui.mood) ∈ userFieldLines ui := by
      rw [userFieldLines]
      simp [hm]
    simp [this]
  · intro hm s hs hcontra
    rw [hcontra, userFieldLines,
      if_neg (show ¬ jsTrim ui.mood ≠ "" by simp [hm])] at hs
    simp only [List.append_nil, List.mem_append] at hs
    rcases hs with (hs | hs) | hs
    · by_cases h1 : jsTrim ui.storyline ≠ ""
      · rw [if_pos h1] at hs
        simp only [List.mem_singleton] at hs
        exact label_append_ne "Mood/Feeling: " "Storyline/Concept: " _ _ 'M' 'S'
          (by decide) (by decide) (by decide) hs
      · rw [if_neg h1] at hs; simp at hs
    · by_cases h2 : jsTrim ui.subject ≠ ""
      · rw [if_pos h2] at hs
        simp only [List.mem_singleton] at hs
        exact label_append_ne "Mood/Feeling: " "Subject: " _ _ 'M' 'S'
          (by decide) (by decide) (by decide) hs
      · rw [if_neg h2] at hs; simp at hs
    · by_cases h3 : jsTrim ui.environment ≠ ""
      · rw [if_pos h3] at hs
        simp only [List.mem_singleton] at hs
        exact label_append_ne "Mood/Feeling: " "Environment: " _ _ 'M' 'E'
          (by decide) (by decide) (by decide) hs
      · rw [if_neg h3] at hs; simp at hs

/-- Witness for `revision_user_message_structure` at the spec's mood example. -/
theorem revision_user_message_structure_witness :
    jsTrim "tense, melancholic, cold blue light" ≠ "" ∧
    containsSeg
      (buildReviseUserMessage "orig prompt text" "Medium Shot" "make it warmer"
        ⟨"", "", "", "tense, melancholic, cold blue light"⟩ none)
      ("Mood/Feeling: " ++ "tense, melancholic, cold blue light").data :=
  ⟨by decide, ((revision_user_message_structure "orig prompt text" "Medium Shot" "make it warmer"
      ⟨"", "", "", "tense, melancholic, cold blue light"⟩ none).2.2.2.1 (by decide))⟩

/-- Claim C7: an empty usable result is fatal and distinct from a parse
error.  A generation response whose extracted object (or array) has a
missing, non-array, or empty `prompts` list makes Generate fail with the 500
"Model returned no prompts" error and no partial output; a revision response
whose extracted `prompt` string is empty or whitespace-only makes Revise fail
with the 500 "Model returned an empty prompt" error and no replacement
text. -/
theorem empty_result_errors :
    (∀ (k : String), jsTrim k ≠ "" → ∀ (ui : UserInputs), hasUserInputs ui →
      ∀ (n : Int) (vr : Except TransportError String) (gtxt : String) (j : Json),
      parseJsonResponse gtxt.data = .ok j → j ≠ Json.null →
      (∀ (p : Json) (ps : List Json),
        jsonLookup j "prompts" ≠ some (Json.arr (p :: ps))) →
      generatePOST (some k) [] ui n vr (.ok gtxt) =
        (.err 500 "Model returned no prompts. Please try again.", [genModel]))
  ∧ (∀ (ek : String), jsTrim ek ≠ "" → ∀ (p lab note : String),
      jsTrim p ≠ "" → jsTrim note ≠ "" →
      ∀ (ui : UserInputs) (cues : Option VisualStyleCues) (rtxt : String)
        (j : Json) (s : String),
      parseJsonResponse rtxt.data = .ok j →
      jsonLookup j "prompt" = some (Json.str s) → jsTrim s = "" →
      revisePOST (some ek) p lab note ui cues (.ok rtxt) =
        (.err 500 "Model returned an empty prompt. Please try again.", [genModel])) := by
  constructor
  · intro k hk ui hu n vr gtxt j hj hnull hbad
    rw [generatePOST_noimg_path k hk ui hu n vr (.ok gtxt)]
    unfold runGeneration
    simp only [hj]
    rfl
  · intro ek hek p lab note hp hn ui cues rtxt j s hj hl hs
    have hnull : j ≠ Json.null := by
      intro h
      rw [h] at hl
      simp [jsonLookup] at hl
    rw [revisePOST.eq_def, if_neg (apiKey_present_some ek hek),
      if_neg (by simp [hp, hn])]
    simp only [hj, hl, hs, if_true]

/-- Witness for `empty_result_errors` at concrete responses. -/
theorem empty_result_errors_witness :
    jsTrim "sk" ≠ "" ∧ hasUserInputs ⟨"s", "", "", ""⟩ ∧
    parseJsonResponse "\x7b\"nope\":1\x7d".data = .ok (Json.obj [("nope", Json.num "1")]) ∧
    generatePOST (some "sk") [] ⟨"s", "", "", ""⟩ 3 (.error .timeout)
      (.ok "\x7b\"nope\":1\x7d") =
      (.err 500 "Model returned no prompts. Please try again.", [genModel]) ∧
    revisePOST (some "sk") "orig" "L" "note" ⟨"", "", "", ""⟩ none
      (.ok "\x7b\"prompt\":\"   \"\x7d") =
      (.err 500 "Model returned an empty prompt. Please try again.", [genModel]) := by
  refine ⟨by decide, by decide, by rfl, ?_, ?_⟩
  · exact (empty_result_errors).1 "sk" (by decide) ⟨"s", "", "", ""⟩ (by decide) 3 (.error .timeout)
      "\x7b\"nope\":1\x7d" (Json.obj [("nope", Json.num "1")]) rfl
      (fun h => Json.noConfusion h) (fun p ps h => Option.noConfusion h)
  · exact (empty_result_errors).2 "sk" (by decide) "orig" "L" "note" (by decide) (by decide)
      ⟨"", "", "", ""⟩ none "\x7b\"prompt\":\"   \"\x7d"
      (Json.obj [("prompt", Json.str "   ")]) "   " rfl rfl (by decide)

/-- Claim C8: a Generate request with zero images (valid key, at least one
non-empty user field) skips the vision stage entirely: its only transport
call is to the generation model, and any successful result has
`visualStyleCues` absent. -/
theorem generate_without_images_skips_vision (k : String) (hk : jsTrim k ≠ "") (ui : UserInputs)
    (hu : hasUserInputs ui) (n : Int) (vr gr : Except TransportError String) :
    (generatePOST (some k) [] ui n vr gr).2 = [genModel]
  ∧ (∀ (ps : List Json) (c : Option Json),
      (generatePOST (some k) [] ui n vr gr).1 = GenOutcome.ok ps c → c = none) := by
  constructor
  · rw [generatePOST_noimg_path k hk ui hu n vr gr, runGeneration_calls]
    rfl
  · intro ps c h
    rw [generatePOST_noimg_path k hk ui hu n vr gr] at h
    exact runGeneration_ok_cues _ _ _ _ _ h

/-- Witness for `generate_without_images_skips_vision` at concrete inputs. -/
theorem generate_without_images_skips_vision_witness :
    jsTrim "sk" ≠ "" ∧ hasUserInputs ⟨"s", "", "", ""⟩ ∧
    (generatePOST (some "sk") [] ⟨"s", "", "", ""⟩ 3 (.error .timeout)
      (.ok "\x7b\"prompts\":[\x7b\"label\":\"L\",\"prompt\":\"p\"\x7d]\x7d")).2 =
      [genModel] :=
  ⟨by decide, by decide, (generate_without_images_skips_vision "sk" (by decide) ⟨"s", "", "", ""⟩ (by decide) 3 _ _).1⟩

/-- Claim C9: whenever the apiKey field is missing, empty, or
whitespace-only, Generate fails with 400 "API key is required" and makes zero
transport calls, for all images and user inputs — so the credential check is
decided before the inputs-presence precondition. -/
theorem generate_api_key_validation (k : Option String) (imgs : List ImageInput) (ui : UserInputs)
    (n : Int) (vr gr : Except TransportError String) (h : apiKeyMissing k) :
    generatePOST k imgs ui n vr gr = (.err 400 "API key is required", []) := by
  rw [generatePOST.eq_def, if_pos h]

/-- Witness for `generate_api_key_validation`: a whitespace key with images and inputs present. -/
theorem generate_api_key_validation_witness :
    apiKeyMissing (some "   ") ∧
    generatePOST (some "   ") [ImageInput.url "u"] ⟨"s", "", "", ""⟩ 3
      (.ok "x") (.ok "y") = (.err 400 "API key is required", []) :=
  ⟨by decide, generate_api_key_validation _ _ _ 3 _ _ (by decide)⟩

/-- Claim C10: Generate validates neither the requested prompt count nor the
returned batch beyond non-emptiness: for every integer promptCount the
request passes validation and reaches transport, the count is inserted
verbatim into the first line of the generation instruction, and every
extracted non-empty prompts array is returned to the caller unchanged —
its length is never compared to promptCount and label distinctness is never
checked. -/
theorem generate_count_and_batch_unvalidated :
    (∀ (k : String), jsTrim k ≠ "" →
      ∀ (imgs : List ImageInput) (ui : UserInputs), (imgs ≠ [] ∨ hasUserInputs ui) →
      ∀ (n : Int) (vr gr : Except TransportError String),
      (generatePOST (some k) imgs ui n vr gr).2 ≠ [])
  ∧ (∀ (ui : UserInputs) (n : Int) (cues : Option VisualStyleCues),
      (buildMiniMaxUserMessageLines ui n cues).head? =
        some ("Generate exactly " ++ toString n ++
          " Flux 2 [pro] image generation prompts."))
  ∧ (∀ (k : String), jsTrim k ≠ "" → ∀ (ui : UserInputs), hasUserInputs ui →
      ∀ (n : Int) (vr : Except TransportError String) (gtxt : String) (j : Json)
        (p : Json) (ps : List Json),
      parseJsonResponse gtxt.data = .ok j →
      jsonLookup j "prompts" = some (Json.arr (p :: ps)) →
      generatePOST (some k) [] ui n vr (.ok gtxt) =
        (GenOutcome.ok (p :: ps) none, [genModel])) := by
  refine ⟨?_, ?_, ?_⟩
  · intro k hk imgs ui hor n vr gr
    by_cases hi : imgs = []
    · have hu : hasUserInputs ui := hor.resolve_left (fun hne => hne hi)
      rw [hi, generatePOST_noimg_path k hk ui hu n vr gr, runGeneration_calls]
      simp
    · rw [generatePOST_vision_path k hk imgs hi ui n vr gr]
      cases vr with
      | error e => simp
      | ok txt =>
        show (runGeneration ((parseJsonResponse txt.data).toOption) [visionModel] gr).2 ≠ []
        rw [runGeneration_calls]
        simp
  · intro ui n cues
    cases cues with
    | none => rfl
    | some c =>
      rw [buildMiniMaxUserMessageLines]
      by_cases hkw : c.cinematicKeywords.length > 0
      · rw [if_pos hkw]
        rfl
      · rw [if_neg hkw]
        rfl
  · intro k hk ui hu n vr gtxt j p ps hj hl
    have hnull : j ≠ Json.null := by
      intro h
      rw [h] at hl
      simp [jsonLookup] at hl
    rw [generatePOST_noimg_path k hk ui hu n vr (.ok gtxt)]
    unfold runGeneration
    simp only [hj, hl]
    rfl

/-- Witness for `generate_count_and_batch_unvalidated`: count 7 with a batch of two identically-labeled prompts. -/
theorem generate_count_and_batch_unvalidated_witness :
    jsTrim "sk" ≠ "" ∧ hasUserInputs ⟨"s", "", "", ""⟩ ∧
    parseJsonResponse
      "\x7b\"prompts\":[\x7b\"label\":\"Wide\",\"prompt\":\"a\"\x7d,\x7b\"label\":\"Wide\",\"prompt\":\"a\"\x7d]\x7d".data =
      .ok (Json.obj [("prompts", Json.arr
        [Json.obj [("label", Json.str "Wide"), ("prompt", Json.str "a")],
         Json.obj [("label", Json.str "Wide"), ("prompt", Json.str "a")]])]) ∧
    generatePOST (some "sk") [] ⟨"s", "", "", ""⟩ 7 (.error .timeout)
      (.ok "\x7b\"prompts\":[\x7b\"label\":\"Wide\",\"prompt\":\"a\"\x7d,\x7b\"label\":\"Wide\",\"prompt\":\"a\"\x7d]\x7d") =
      (GenOutcome.ok
        [Json.obj [("label", Json.str "Wide"), ("prompt", Json.str "a")],
         Json.obj [("label", Json.str "Wide"), ("prompt", Json.str "a")]] none,
       [genModel]) := by
  refine ⟨by decide, by decide, by rfl, ?_⟩
  exact (generate_count_and_batch_unvalidated).2.2 "sk" (by decide) ⟨"s", "", "", ""⟩ (by decide) 7 (.error .timeout)
    _ _ _ _ rfl rfl
